import Mathlib

/-!
Verification of the output-orchestration engine of the scrape tool
(src/scrape/scrape.py) against its natural-language specification.

The program state visible to the orchestrator (part files in the working
directory, the working directory itself, the standard-error and standard-out
streams, and the set of output artifacts written) is modelled explicitly.
External collaborators (HTTP fetch, crawling, text/PDF writers, the
filesystem predicates) are oracles carried in an `Env` record, following
the spec's component boundaries.  Computations are embedded as explicit
state-passing functions `St -> Except Err A × St`, so that control flow,
exception propagation and cleanup ordering mirror the Python source
line by line.
-/

namespace Scrape

/-- Exceptions that can propagate through the orchestrator: user
interruption (KeyboardInterrupt), a filesystem OSError, or any other
exception raised by a collaborator. -/
inductive Err where
  | keyboardInterrupt : Err
  | osError : Err
  | exn : String → Err
deriving DecidableEq

/-- The observable machine state: the number of PART(n).html files present
in the working directory (the spec's PartFileStore contract says they are
numbered contiguously from 1, so a count suffices), the current working
directory, the two output streams, and the output artifacts written. -/
structure St where
  partFiles : Nat
  cwd : String
  stderr : List String
  stdout : List String
  outputs : List String
deriving DecidableEq

/-- A stateful computation that can raise: the state survives an exception
so that cleanup performed before re-raising stays observable. -/
abbrev M (α : Type) := St → Except Err α × St

/-- Python str.strip of slash characters: drop leading and trailing
slash characters. -/
def stripSlashes (s : String) : String :=
  String.mk (((s.data.dropWhile (fun c => c == '/')).reverse.dropWhile
      (fun c => c == '/')).reverse)

/-- Boolean test that the first list is an initial segment of the second. -/
def isPrefixL : List Char → List Char → Bool
  | [], _ => true
  | _ :: _, [] => false
  | a :: as, b :: bs => a == b && isPrefixL as bs

/-- Boolean test that the first list occurs contiguously inside the second. -/
def isSubL (n : List Char) : List Char → Bool
  | [] => isPrefixL n []
  | c :: cs => isPrefixL n (c :: cs) || isSubL n cs

/-- Python's substring containment test on strings. -/
def pyIn (needle hay : String) : Bool := isSubL needle.data hay.data

/-- Python str.endswith. -/
def pyEndswith (s suffix : String) : Bool :=
  isPrefixL suffix.data.reverse s.data.reverse

/-- Python str.split on a single separator character: always returns at
least one piece, pieces are the maximal separator-free runs. -/
def pySplit (sep : Char) : List Char → List (List Char)
  | [] => [[]]
  | c :: rest =>
    let r := pySplit sep rest
    if c == sep then [] :: r
    else
      match r with
      | h :: t => (c :: h) :: t
      | [] => [[c]]

/-- Join character lists with a separator character, as Python sep.join. -/
def joinSep (sep : Char) : List (List Char) → List Char
  | [] => []
  | [x] => x
  | x :: xs => x ++ sep :: joinSep sep xs

/-- The source's filename-without-extension idiom:
a dot joined over split-on-dot minus its last piece. -/
def stripExt (s : String) : String :=
  String.mk (joinSep '.' ((pySplit '.' s.data).dropLast))

/-- Python str.lower restricted to character-wise lowering. -/
def pyLower (s : String) : String := String.mk (s.data.map Char.toLower)

/-- The extension guard both writers open with: append the extension
unless the name already ends with it. -/
def ensure_ext (name ext : String) : String :=
  if pyEndswith name ext then name else name ++ ext

/-- The resolved program options, mirroring the args dict fields the
orchestrator reads.  `crawl` is the truthiness of the crawl-rules list,
`out` is None or the explicit output-name list; `files` and `urls` are
filled in by classification inside scrape. -/
structure Args where
  query : List String
  out : Option (List String)
  single : Bool
  multiple : Bool
  html : Bool
  pdf : Bool
  text : Bool
  print : Bool
  quiet : Bool
  crawl : Bool
  crawl_all : Bool
  files : List String
  urls : List String
deriving DecidableEq

/-- args['out'] after the None-to-empty-list normalization scrape applies. -/
def outList (args : Args) : List String := args.out.getD []

/-- External collaborators and environment facts, per the spec's component
boundaries: filesystem classification, URL normalization helpers, the
fetch and crawl collaborators, the text/PDF writer collaborators, the
text-extraction collaborator, and whether a chdir to a directory succeeds. -/
structure Env where
  isfile : String → Bool
  add_url_ext : String → String
  check_scheme : String → Bool
  add_scheme : String → String
  get_domain : String → String
  get_outfilename : String → String → String
  get_parsed_text : String → Option (List String)
  fetch : String → Option String
  crawl : String → String → Except Err (List String)
  write_text_file : List String → String → Except Err Unit
  write_pdf_file : List String → String → Except Err Unit
  chdirOk : String → Bool

/-- Modelled from the spec: PartFileStore remove_all deletes every part file
present; idempotent; never fails (utils.remove_part_files is not under src). -/
def remove_part_files (s : St) : St := { s with partFiles := 0 }

/-- Modelled from the spec: PartFileStore count scans for files matching the
numbered-part naming convention (utils.get_num_part_files is not under src). -/
def get_num_part_files (s : St) : Nat := s.partFiles

/-- Modelled from the spec: a fetch appends exactly one new part file
(utils.write_part_file is not under src). -/
def write_part_file (_args : Args) (_url _raw : String) (s : St) : St :=
  { s with partFiles := s.partFiles + 1 }

/-- Modelled from the spec: names_in_range gives the part files numbered
prev+1 .. curr (utils.get_part_filenames is not under src). -/
def get_part_filenames (curr prev : Nat) : List String :=
  (List.range (curr - prev)).map
    (fun i => "PART" ++ toString (prev + 1 + i) ++ ".html")

/-- Modelled from the spec: the fetch collaborator returns none rather than
raising on network failure or non-text content, and the failure is reported
to standard error (utils.get_raw_resp is not under src). -/
def get_raw_resp (env : Env) (url : String) (s : St) : Option String × St :=
  match env.fetch url with
  | some raw => (some raw, s)
  | none =>
    (none, { s with stderr := s.stderr ++ ["Failed to retrieve " ++ url ++ "."] })

/-- Modelled from the spec: create a subdirectory named after the domain and
change into it for the duration of the fetch/crawl
(utils.mkdir_and_cd is not under src). -/
def mkdir_and_cd (domain : String) (s : St) : St :=
  { s with cwd := s.cwd ++ "/" ++ domain }

/-- os.chdir to an absolute path; raises OSError when the environment says
the directory cannot be entered. -/
def chdir (env : Env) (d : String) : M Unit := fun s =>
  if env.chdirOk d then (Except.ok (), { s with cwd := d })
  else (Except.error Err.osError, s)

/-- print_text: print parsed text content of each input file to stdout;
files whose extraction yields nothing are skipped. -/
def print_text (env : Env) (_args : Args) (infilenames : List String) : M Unit :=
  fun s =>
    (Except.ok (),
      { s with stdout := s.stdout ++ infilenames.foldl (fun acc f =>
          match env.get_parsed_text f with
          | some lines => if lines.isEmpty then acc else acc ++ lines ++ [""]
          | none => acc) [] })

/-- write_to_text: ensure the .txt extension, delegate to the external text
writer; on any exception remove part files when the inputs were
remote-derived, then re-raise. -/
def write_to_text (env : Env) (args : Args) (infilenames : List String)
    (outfilename : String) : M Unit := fun s =>
  let outname := ensure_ext outfilename ".txt"
  match env.write_text_file infilenames outname with
  | Except.ok _ => (Except.ok (), { s with outputs := s.outputs ++ [outname] })
  | Except.error e =>
    if args.urls.isEmpty then (Except.error e, s)
    else (Except.error e, remove_part_files s)

/-- write_to_pdf: same contract as write_to_text with the .pdf extension and
the external PDF writer. -/
def write_to_pdf (env : Env) (args : Args) (infilenames : List String)
    (outfilename : String) : M Unit := fun s =>
  let outname := ensure_ext outfilename ".pdf"
  match env.write_pdf_file infilenames outname with
  | Except.ok _ => (Except.ok (), { s with outputs := s.outputs ++ [outname] })
  | Except.error e =>
    if args.urls.isEmpty then (Except.error e, s)
    else (Except.error e, remove_part_files s)

/-- write_files: dispatch on the configured format, then remove part files
when the url set is non-empty and HTML retention was not requested. -/
def write_files (env : Env) (args : Args) (infilenames : List String)
    (outfilename : String) : M Unit := fun s =>
  let r :=
    if args.print then print_text env args infilenames s
    else if args.pdf then write_to_pdf env args infilenames outfilename s
    else if args.text then write_to_text env args infilenames outfilename s
    else (Except.ok (), s)
  match r with
  | (Except.ok _, s₁) =>
    if !args.urls.isEmpty && !args.html then (Except.ok (), remove_part_files s₁)
    else (Except.ok (), s₁)
  | (Except.error e, s₁) => (Except.error e, s₁)

/-- get_single_outfilename's search: the first query item that is a known
local file gives its lowered extension-stripped name; otherwise the first
query item that is a substring of some URL gives the URL-derived name;
none if no item matches. -/
def singleOutName (env : Env) (files urls : List String) :
    List String → Option String
  | [] => none
  | arg :: rest =>
    if files.contains arg then some (pyLower (stripExt arg))
    else
      match urls.find? (fun url => pyIn (stripSlashes arg) url) with
      | some url => some (env.get_outfilename url (env.get_domain url))
      | none => singleOutName env files urls rest

/-- get_single_outfilename: use the first possible query entry as filename;
on no match report failure to standard error and return the empty name. -/
def get_single_outfilename (env : Env) (args : Args) (s : St) : String × St :=
  match singleOutName env args.files args.urls args.query with
  | some name => (name, s)
  | none =>
    ("", { s with stderr :=
        s.stderr ++ ["Failed to construct a single out filename."] })

/-- The shared fetch-or-crawl step for one URL target: crawl when crawling was
requested (the collaborator's part files materialize on success), otherwise a
single-page fetch writing one part file; a no-content fetch yields none. -/
def fetchTarget (env : Env) (args : Args) (q domain : String) :
    M (Option (List String)) := fun s =>
  if args.crawl || args.crawl_all then
    match env.crawl q domain with
    | Except.error e => (Except.error e, s)
    | Except.ok names =>
      (Except.ok (some names), { s with partFiles := s.partFiles + names.length })
  else
    match get_raw_resp env q s with
    | (some raw, s₁) =>
      let prev := get_num_part_files s₁
      let s₂ := write_part_file args q raw s₁
      (Except.ok (some (get_part_filenames (prev + 1) prev)), s₂)
    | (none, s₁) => (Except.ok none, s₁)

/-- The accumulation loop of write_single_file: URL targets contribute crawled
or fetched part files, local-file targets contribute themselves; a no-content
fetch aborts with none (the source's early return False). -/
def gatherSingle (env : Env) (args : Args) (domain : String) :
    List String → List String → M (Option (List String))
  | [], acc => fun s => (Except.ok (some acc), s)
  | q :: rest, acc => fun s =>
    if args.urls.contains (stripSlashes q) then
      match fetchTarget env args q domain s with
      | (Except.error e, s₁) => (Except.error e, s₁)
      | (Except.ok none, s₁) => (Except.ok none, s₁)
      | (Except.ok (some names), s₁) =>
        gatherSingle env args domain rest (acc ++ names) s₁
    else if args.files.contains q then
      gatherSingle env args domain rest (acc ++ [q]) s
    else gatherSingle env args domain rest acc s

/-- write_single_file: aggregate every target into one output unit; in HTML
mode work inside a domain subdirectory and return to the base directory
afterward; otherwise convert the gathered inputs under a single output name. -/
def write_single_file (env : Env) (args : Args) (base_dir : String) : M Bool :=
  fun s =>
  let domain :=
    match args.urls with
    | [] => ""
    | u :: _ => env.get_domain u
  let s :=
    if !args.urls.isEmpty && args.html then
      mkdir_and_cd domain
        (if args.quiet then s
         else { s with stdout :=
            s.stdout ++ ["Storing html files in " ++ domain ++ "/"] })
    else s
  match gatherSingle env args domain args.query [] s with
  | (Except.error e, s₁) => (Except.error e, s₁)
  | (Except.ok none, s₁) => (Except.ok false, s₁)
  | (Except.ok (some infilenames), s₁) =>
    if args.html then
      match chdir env base_dir s₁ with
      | (Except.error e, s₂) => (Except.error e, s₂)
      | (Except.ok _, s₂) => (Except.ok true, s₂)
    else
      if !infilenames.isEmpty then
        let p :=
          if !(outList args).isEmpty then ((outList args).headD "", s₁)
          else get_single_outfilename env args s₁
        if p.1 ≠ "" then
          match write_files env args infilenames p.1 p.2 with
          | (Except.error e, s₃) => (Except.error e, s₃)
          | (Except.ok _, s₃) => (Except.ok true, s₃)
        else (Except.ok true, p.2)
      else (Except.ok true, remove_part_files s₁)

/-- The indexed loop of write_multiple_files: one output unit per query item;
local files convert directly, URL targets fetch or crawl first; a no-content
fetch aborts with False, an empty crawl result is reported and skipped. -/
def writeMultiLoop (env : Env) (args : Args) (base_dir : String) :
    Nat → List String → M Bool
  | _, [] => fun s => (Except.ok true, s)
  | i, q :: rest => fun s =>
    if args.files.contains q then
      let outfilename :=
        if !(outList args).isEmpty && i < (outList args).length then
          (outList args).getD i ""
        else stripExt q
      match write_files env args [q] outfilename s with
      | (Except.error e, s₁) => (Except.error e, s₁)
      | (Except.ok _, s₁) => writeMultiLoop env args base_dir (i + 1) rest s₁
    else if args.urls.contains q then
      let domain := env.get_domain q
      let s :=
        if args.html then
          mkdir_and_cd domain
            (if args.quiet then s
             else { s with stdout :=
                s.stdout ++ ["Storing html files in " ++ domain ++ "/"] })
        else s
      match fetchTarget env args q domain s with
      | (Except.error e, s₁) => (Except.error e, s₁)
      | (Except.ok none, s₁) => (Except.ok false, s₁)
      | (Except.ok (some infilenames), s₁) =>
        if args.html then
          match chdir env base_dir s₁ with
          | (Except.error e, s₂) => (Except.error e, s₂)
          | (Except.ok _, s₂) => writeMultiLoop env args base_dir (i + 1) rest s₂
        else
          if !infilenames.isEmpty then
            let outfilename :=
              if !(outList args).isEmpty && i < (outList args).length then
                (outList args).getD i ""
              else env.get_outfilename q domain
            match write_files env args infilenames outfilename s₁ with
            | (Except.error e, s₂) => (Except.error e, s₂)
            | (Except.ok _, s₂) => writeMultiLoop env args base_dir (i + 1) rest s₂
          else
            writeMultiLoop env args base_dir (i + 1) rest
              { s₁ with stderr :=
                  s₁.stderr ++ ["Failed to retrieve content from " ++ q ++ "."] }
    else writeMultiLoop env args base_dir (i + 1) rest s

/-- write_multiple_files: the indexed loop started at position zero. -/
def write_multiple_files (env : Env) (args : Args) (base_dir : String) :
    M Bool :=
  writeMultiLoop env args base_dir 0 args.query

/-- The planner's mode decision: honor an explicit flag; otherwise multiple
mode when more than one query item or more than one explicit output name was
given, else single mode. -/
def resolveMode (args : Args) : Args :=
  if !args.single && !args.multiple then
    if args.query.length > 1 ∨ (outList args).length > 1 then
      { args with multiple := true }
    else { args with single := true }
  else args

/-- Target classification and URL normalization: split the query into local
files and slash-stripped URLs; when URLs are present, complete them with
extension and scheme, rebuild the query list from them, and recompute the
url set as the rebuilt query minus known files. -/
def classify (env : Env) (args : Args) : Args :=
  let files := args.query.filter (fun a => env.isfile a)
  let urls := (args.query.filter (fun a => !env.isfile a)).map stripSlashes
  let args1 := { args with files := files, urls := urls }
  if !args1.urls.isEmpty then
    let urls_with_exts := args1.urls.map env.add_url_ext
    let query := urls_with_exts.map (fun x =>
      if args1.urls.contains x && !env.check_scheme x then env.add_scheme x
      else x)
    let urls2 := query.filter (fun x => !args1.files.contains x)
    { args1 with query := query, urls := urls2 }
  else args1

/-- The argument preprocessing scrape performs before dispatch: normalize the
out list, resolve the mode, classify targets, and drop local files (with a
standard-error report) when HTML output was requested. -/
def preprocess (env : Env) (args : Args) : Args × List String :=
  let args1 := resolveMode { args with out := some (outList args) }
  let args2 := classify env args1
  if !args2.files.isEmpty && args2.html then
    ({ args2 with files := [] }, ["Cannot convert local files to HTML."])
  else (args2, [])

/-- The body of scrape's try block: preprocess, then dispatch to the single
or multiple writer; none models the unreachable fall-through. -/
def scrapeBody (env : Env) (args : Args) (base_dir : String) :
    M (Option Bool) := fun s =>
  let p := preprocess env args
  let s₁ := { s with stderr := s.stderr ++ p.2 }
  if p.1.single then
    match write_single_file env p.1 base_dir s₁ with
    | (Except.error e, s₂) => (Except.error e, s₂)
    | (Except.ok b, s₂) => (Except.ok (some b), s₂)
  else if p.1.multiple then
    match write_multiple_files env p.1 base_dir s₁ with
    | (Except.error e, s₂) => (Except.error e, s₂)
    | (Except.ok b, s₂) => (Except.ok (some b), s₂)
  else (Except.ok none, s₁)

/-- scrape: run the body under the recovery wrapper; on any exception restore
the base directory (best effort, OSError swallowed) in HTML mode, otherwise
remove all part files, then re-raise the original exception. -/
def scrape (env : Env) (args : Args) : M (Option Bool) := fun s =>
  let base_dir := s.cwd
  match scrapeBody env args base_dir s with
  | (Except.ok v, s₁) => (Except.ok v, s₁)
  | (Except.error e, s₁) =>
    if args.html then
      if env.chdirOk base_dir then (Except.error e, { s₁ with cwd := base_dir })
      else (Except.error e, s₁)
    else (Except.error e, remove_part_files s₁)

end Scrape

namespace Scrape

/-- The initial state for concrete runs: an empty working directory /base. -/
def st0 : St :=
  { partFiles := 0, cwd := "/base", stderr := [], stdout := [], outputs := [] }

/-- A neutral environment: nothing is a local file, URL normalization is the
identity with schemes considered present, every fetch fails, crawls return
nothing, writers succeed, chdir always succeeds. -/
def env0 : Env :=
  { isfile := fun _ => false
    add_url_ext := id
    check_scheme := fun _ => true
    add_scheme := id
    get_domain := fun _ => "dom"
    get_outfilename := fun _ _ => "slug"
    get_parsed_text := fun _ => none
    fetch := fun _ => none
    crawl := fun _ _ => Except.ok []
    write_text_file := fun _ _ => Except.ok ()
    write_pdf_file := fun _ _ => Except.ok ()
    chdirOk := fun _ => true }

/-- Options with every flag off and no queries. -/
def args0 : Args :=
  { query := [], out := none, single := false, multiple := false,
    html := false, pdf := false, text := false, print := false, quiet := true,
    crawl := false, crawl_all := false, files := [], urls := [] }

def envC1 : Env :=
  { env0 with fetch := fun u => if u == "http://a.com" then some "A" else none }

def argsC1 : Args :=
  { args0 with query := ["http://a.com", "http://b.com"],
               single := true, text := true }

def envC2 : Env :=
  { env0 with fetch := fun u => if u == "http://u2.com" then some "B" else none }

def argsC2 : Args :=
  { args0 with query := ["http://u1.com", "http://u2.com"],
               multiple := true, text := true }

def argsC5 : Args :=
  { args0 with query := ["http://a.com"], single := true, html := true }

def envC5w : Env :=
  { env0 with crawl := fun _ _ => Except.error (Err.exn "boom") }

def argsC5w : Args :=
  { args0 with query := ["http://a.com"], single := true, html := true,
               crawl_all := true }

def envC7 : Env :=
  { env0 with isfile := fun f => f == "notes.txt",
              check_scheme := fun _ => false,
              add_scheme := fun u => "http://" ++ u }

def argsC7 : Args :=
  { args0 with query := ["notes.txt", "example.com"],
               single := true, text := true }

def envC10 : Env := { env0 with isfile := fun f => f == "noext" }

def argsC10 : Args :=
  { args0 with query := ["noext"], single := true, text := true }

end Scrape

namespace Scrape

def argsC3 : Args := { args0 with query := ["a", "b"] }

def envC4 : Env :=
  { env0 with write_text_file := fun _ _ => Except.error Err.keyboardInterrupt,
              write_pdf_file := fun _ _ => Except.error (Err.exn "pdf failed") }

def argsC4 : Args := { args0 with text := true, urls := ["http://a.com"] }

def argsC6 : Args :=
  { args0 with query := ["http://a.com"], urls := ["http://a.com"],
               single := true, text := true }

def argsC2m : Args :=
  { args0 with query := ["http://u1.com", "http://u2.com"],
               urls := ["http://u1.com", "http://u2.com"],
               multiple := true, text := true }

def argsC1w : Args := { args0 with text := true, urls := ["http://a.com"] }

def envC1e : Env :=
  { env0 with fetch := fun _ => some "A",
              write_text_file := fun _ _ => Except.error (Err.exn "write failed") }

def argsC1e : Args :=
  { args0 with query := ["http://a.com"], single := true, text := true }

def envC9 : Env := { env0 with fetch := fun _ => some "A" }

def argsC9 : Args :=
  { args0 with query := ["http://a.com"], single := true, multiple := true,
               text := true }

def argsC10w : Args :=
  { args0 with query := ["noext"], files := ["noext"], single := true,
               text := true }

end Scrape

namespace Scrape

theorem isPrefixL_append_self (l t : List Char) : isPrefixL l (l ++ t) = true := by
  induction l with
  | nil => rfl
  | cons c cs ih => simp [isPrefixL, ih]

theorem pyEndswith_append (s ext : String) : pyEndswith (s ++ ext) ext = true := by
  unfold pyEndswith
  rw [String.data_append, List.reverse_append]
  exact isPrefixL_append_self _ _

theorem ensure_ext_endswith (name ext : String) :
    pyEndswith (ensure_ext name ext) ext = true := by
  unfold ensure_ext
  cases h : pyEndswith name ext with
  | true => simp [h]
  | false => simp [h, pyEndswith_append]

/-- C3: with neither mode flag set, the planner selects multiple-file mode
iff the query list or the explicit output-name list has more than one item,
and single-file mode otherwise; an explicitly requested mode is left as is. -/
theorem mode_selection_default_and_explicit (args : Args) :
    ((args.single = false ∧ args.multiple = false) →
      (((resolveMode args).multiple = true) ↔
        (args.query.length > 1 ∨ (outList args).length > 1))
      ∧ (((resolveMode args).single = true) ↔
        ¬(args.query.length > 1 ∨ (outList args).length > 1)))
    ∧ ((args.single = true ∨ args.multiple = true) → resolveMode args = args) := by
  constructor
  · rintro ⟨h1, h2⟩
    by_cases hc : args.query.length > 1 ∨ (outList args).length > 1
    · simp [resolveMode, h1, h2, hc]
    · simp [resolveMode, h1, h2, hc]
  · intro h
    rcases h with h | h <;> simp [resolveMode, h]

/-- Witness for C3 at a two-item query with no explicit mode flag. -/
theorem mode_selection_default_and_explicit_witness :
    (argsC3.single = false ∧ argsC3.multiple = false)
    ∧ ((resolveMode argsC3).multiple = true ↔
        (argsC3.query.length > 1 ∨ (outList argsC3).length > 1)) := by
  refine ⟨⟨rfl, rfl⟩, ?_⟩
  exact ((mode_selection_default_and_explicit argsC3).1 ⟨rfl, rfl⟩).1

/-- C4: when the external text or PDF writer raises, the writer wrapper
removes all part files exactly when the url set is non-empty and re-raises
the same exception, never suppressing it. -/
theorem writer_failure_cleanup_and_reraise (env : Env) (args : Args)
    (infilenames : List String) (outfilename : String) (s : St) (e e' : Err)
    (ht : env.write_text_file infilenames (ensure_ext outfilename ".txt") =
      Except.error e)
    (hp : env.write_pdf_file infilenames (ensure_ext outfilename ".pdf") =
      Except.error e') :
    write_to_text env args infilenames outfilename s =
      (Except.error e, if args.urls.isEmpty then s else remove_part_files s)
    ∧ write_to_pdf env args infilenames outfilename s =
      (Except.error e', if args.urls.isEmpty then s else remove_part_files s)
    ∧ (remove_part_files s).partFiles = 0 := by
  refine ⟨?_, ?_, rfl⟩
  · simp only [write_to_text]
    rw [ht]
    cases hu : args.urls.isEmpty <;> simp [hu]
  · simp only [write_to_pdf]
    rw [hp]
    cases hu : args.urls.isEmpty <;> simp [hu]

/-- Witness for C4: both writers fail against a state holding one part file
and a non-empty url set; the part file is removed and the errors re-raised. -/
theorem writer_failure_cleanup_and_reraise_witness :
    write_to_text envC4 argsC4 ["PART1.html"] "o" { st0 with partFiles := 1 } =
      (Except.error Err.keyboardInterrupt, st0)
    ∧ write_to_pdf envC4 argsC4 ["PART1.html"] "o" { st0 with partFiles := 1 } =
      (Except.error (Err.exn "pdf failed"), st0) := by
  have h := writer_failure_cleanup_and_reraise envC4 argsC4 ["PART1.html"] "o"
    { st0 with partFiles := 1 } Err.keyboardInterrupt (Err.exn "pdf failed") rfl rfl
  exact ⟨h.1, h.2.1⟩

/-- C8: the name the text writer actually uses ends with .txt, is unchanged
when the given name already ends with .txt, gains the extension otherwise,
and the PDF writer obeys the same contract with .pdf. -/
theorem writer_extension_contract (env : Env) (args : Args)
    (infilenames : List String) (name : String) (s : St)
    (htw : env.write_text_file infilenames (ensure_ext name ".txt") =
      Except.ok ())
    (hpw : env.write_pdf_file infilenames (ensure_ext name ".pdf") =
      Except.ok ()) :
    pyEndswith (ensure_ext name ".txt") ".txt" = true
    ∧ (pyEndswith name ".txt" = true → ensure_ext name ".txt" = name)
    ∧ (pyEndswith name ".txt" = false → ensure_ext name ".txt" = name ++ ".txt")
    ∧ pyEndswith (ensure_ext name ".pdf") ".pdf" = true
    ∧ (pyEndswith name ".pdf" = true → ensure_ext name ".pdf" = name)
    ∧ (pyEndswith name ".pdf" = false → ensure_ext name ".pdf" = name ++ ".pdf")
    ∧ write_to_text env args infilenames name s =
      (Except.ok (), { s with outputs := s.outputs ++ [ensure_ext name ".txt"] })
    ∧ write_to_pdf env args infilenames name s =
      (Except.ok (), { s with outputs := s.outputs ++ [ensure_ext name ".pdf"] }) := by
  refine ⟨ensure_ext_endswith name ".txt", ?_, ?_,
    ensure_ext_endswith name ".pdf", ?_, ?_, ?_, ?_⟩
  · intro h; simp [ensure_ext, h]
  · intro h; simp [ensure_ext, h]
  · intro h; simp [ensure_ext, h]
  · intro h; simp [ensure_ext, h]
  · simp only [write_to_text]
    rw [htw]
  · simp only [write_to_pdf]
    rw [hpw]

/-- Witness for C8 at the name report with succeeding writers. -/
theorem writer_extension_contract_witness :
    pyEndswith (ensure_ext "report" ".txt") ".txt" = true
    ∧ write_to_text env0 args0 ["in.html"] "report" st0 =
      (Except.ok (), { st0 with outputs := ["report.txt"] }) := by
  have h := writer_extension_contract env0 args0 ["in.html"] "report" st0 rfl rfl
  exact ⟨h.1, h.2.2.2.2.2.2.1⟩

/-- C7 failing-input evaluation: with one existing local file and one URL in
the query, classification rebuilds the query from the normalized URLs only,
so the classified local file is no longer present in the rewritten query. -/
theorem classification_drops_local_files_from_query :
    (classify envC7 argsC7).files = ["notes.txt"]
    ∧ (classify envC7 argsC7).urls = ["http://example.com"]
    ∧ (classify envC7 argsC7).query = ["http://example.com"]
    ∧ (classify envC7 argsC7).query.contains "notes.txt" = false := by
  refine ⟨rfl, rfl, rfl, rfl⟩

/-- C1 counterexample: a URL-sourced non-HTML run whose second fetch returns
no content aborts without an exception, leaving the first part file behind. -/
theorem part_files_remain_after_aborted_single_run :
    scrape envC1 argsC1 st0 =
      (Except.ok (some false),
        { st0 with partFiles := 1,
                   stderr := ["Failed to retrieve http://b.com."] })
    ∧ (scrape envC1 argsC1 st0).2.partFiles ≠ 0 := by
  refine ⟨rfl, by decide⟩

/-- C2 counterexample: in multiple-file mode a no-content fetch for the first
target ends the run immediately with False: the second, fetchable target is
never processed and no output is produced. -/
theorem multi_mode_fetch_failure_aborts_run :
    scrape envC2 argsC2 st0 =
      (Except.ok (some false),
        { st0 with stderr := ["Failed to retrieve http://u1.com."] })
    ∧ envC2.fetch "http://u2.com" = some "B"
    ∧ (scrape envC2 argsC2 st0).2.outputs = [] := by
  refine ⟨rfl, rfl, rfl⟩

/-- C5 counterexample: in HTML mode a no-content fetch returns False after
the chdir into the domain subdirectory but before the restore, so the core
call returns with the working directory changed. -/
theorem cwd_not_restored_after_fetch_failure_in_html_mode :
    scrape env0 argsC5 st0 =
      (Except.ok (some false),
        { st0 with cwd := "/base/dom",
                   stderr := ["Failed to retrieve http://a.com."] })
    ∧ (scrape env0 argsC5 st0).2.cwd ≠ st0.cwd := by
  refine ⟨rfl, by decide⟩

/-- C10 counterexample: a single-file run on a local file without a dot in
its name returns success with no output file, and no diagnostic at all is
written to standard error. -/
theorem no_diagnostic_for_empty_derived_name :
    scrape envC10 argsC10 st0 = (Except.ok (some true), st0)
    ∧ (scrape envC10 argsC10 st0).2.stderr = []
    ∧ (scrape envC10 argsC10 st0).2.outputs = [] := by
  refine ⟨rfl, rfl, rfl⟩

end Scrape

namespace Scrape

/-- C1 amended: part-file cleanup is guaranteed once conversion dispatch
completes (url-sourced, non-HTML) and on any exception reaching the top
level in non-HTML mode; runs aborted early by a no-content fetch are not
covered (see the counterexample). -/
theorem part_file_cleanup_after_dispatch_or_exception :
    (∀ (env : Env) (args : Args) (infilenames : List String)
        (outfilename : String) (s : St) (v : Unit) (s₁ : St),
        args.urls.isEmpty = false → args.html = false →
        write_files env args infilenames outfilename s = (Except.ok v, s₁) →
        s₁.partFiles = 0)
    ∧ (∀ (env : Env) (args : Args) (s : St) (e : Err) (s₁ : St),
        args.html = false →
        scrape env args s = (Except.error e, s₁) → s₁.partFiles = 0) := by
  constructor
  · intro env args infilenames outfilename s v s₁ hu hh hw
    simp only [write_files] at hw
    rcases hd : (if args.print = true then print_text env args infilenames s
      else if args.pdf = true then write_to_pdf env args infilenames outfilename s
      else if args.text = true then write_to_text env args infilenames outfilename s
      else (Except.ok (), s)) with ⟨exc, s₂⟩
    rw [hd] at hw
    cases exc with
    | ok u =>
      rw [hu, hh] at hw
      simp only [Bool.not_false, Bool.and_self, if_true] at hw
      cases hw
      rfl
    | error e => simp at hw
  · intro env args s e s₁ hh hsc
    simp only [scrape] at hsc
    rcases hb : scrapeBody env args s.cwd s with ⟨exc, s₂⟩
    rw [hb] at hsc
    cases exc with
    | ok v => simp at hsc
    | error e' =>
      rw [hh] at hsc
      simp only [Bool.false_eq_true, if_false] at hsc
      cases hsc
      rfl

/-- Witness for C1 amended: a successful dispatch removes the part file, and
an exceptional run (failing writer) ends with zero part files. -/
theorem part_file_cleanup_after_dispatch_or_exception_witness :
    (write_files envC1 argsC1w ["PART1.html"] "o"
      { st0 with partFiles := 1 }).2.partFiles = 0
    ∧ (scrape envC1e argsC1e st0).2.partFiles = 0 := by
  constructor
  · exact part_file_cleanup_after_dispatch_or_exception.1 envC1 argsC1w
      ["PART1.html"] "o" { st0 with partFiles := 1 } ()
      (write_files envC1 argsC1w ["PART1.html"] "o"
        { st0 with partFiles := 1 }).2 rfl rfl rfl
  · exact part_file_cleanup_after_dispatch_or_exception.2 envC1e argsC1e st0
      (Err.exn "write failed") (scrape envC1e argsC1e st0).2 rfl rfl

/-- C2 amended: in multiple-file mode a no-content single-page fetch for a
URL target is reported to standard error by the fetch collaborator but is
fatal: the loop returns False at once and the remaining targets are not
processed. -/
theorem multi_mode_fetch_failure_is_fatal (env : Env) (args : Args)
    (base_dir : String) (i : Nat) (q : String) (rest : List String) (s : St)
    (hfq : args.files.contains q = false)
    (huq : args.urls.contains q = true)
    (hc : args.crawl = false) (hca : args.crawl_all = false)
    (hh : args.html = false)
    (hf : env.fetch q = none) :
    writeMultiLoop env args base_dir i (q :: rest) s =
      (Except.ok false,
        { s with stderr := s.stderr ++ ["Failed to retrieve " ++ q ++ "."] }) := by
  simp only [writeMultiLoop, hfq, huq, hh, Bool.false_eq_true, if_false, if_true,
    fetchTarget, hc, hca, Bool.or_self, get_raw_resp, hf]

/-- Witness for C2 amended at the concrete two-target run. -/
theorem multi_mode_fetch_failure_is_fatal_witness :
    writeMultiLoop envC2 argsC2m "/base" 0 ["http://u1.com", "http://u2.com"] st0 =
      (Except.ok false,
        { st0 with stderr := ["Failed to retrieve http://u1.com."] }) := by
  exact multi_mode_fetch_failure_is_fatal envC2 argsC2m "/base" 0 "http://u1.com"
    ["http://u2.com"] st0 rfl rfl rfl rfl rfl rfl

/-- C6 (fetch collaborator modelled from the spec): a single-page no-content
fetch writes a diagnostic to standard error and yields none without raising,
and in single-file mode such a failure for the sole target aborts the run
with no output produced. -/
theorem fetch_failure_reported_and_fatal_in_single_mode (env : Env)
    (args : Args) (base_dir : String) (q : String) (s : St)
    (hq : args.query = [q])
    (hu : args.urls.contains (stripSlashes q) = true)
    (hc : args.crawl = false) (hca : args.crawl_all = false)
    (hh : args.html = false)
    (hf : env.fetch q = none) :
    (∀ (url : String) (s₀ : St), env.fetch url = none →
      get_raw_resp env url s₀ =
        (none, { s₀ with stderr :=
            s₀.stderr ++ ["Failed to retrieve " ++ url ++ "."] }))
    ∧ write_single_file env args base_dir s =
      (Except.ok false,
        { s with stderr := s.stderr ++ ["Failed to retrieve " ++ q ++ "."] }) := by
  constructor
  · intro url s₀ h
    simp [get_raw_resp, h]
  · simp only [write_single_file, hq, hh, Bool.and_false, Bool.false_eq_true,
      if_false, gatherSingle, hu, if_true, fetchTarget, hc, hca, Bool.or_self,
      get_raw_resp, hf]

/-- Witness for C6 at a sole URL target whose fetch fails. -/
theorem fetch_failure_reported_and_fatal_in_single_mode_witness :
    get_raw_resp env0 "http://a.com" st0 =
      (none, { st0 with stderr := ["Failed to retrieve http://a.com."] })
    ∧ write_single_file env0 argsC6 "/base" st0 =
      (Except.ok false,
        { st0 with stderr := ["Failed to retrieve http://a.com."] }) := by
  have h := fetch_failure_reported_and_fatal_in_single_mode env0 argsC6 "/base"
    "http://a.com" st0 rfl rfl rfl rfl rfl rfl
  exact ⟨h.1 "http://a.com" st0 rfl, h.2⟩

theorem classify_single (env : Env) (args : Args) :
    (classify env args).single = args.single := by
  unfold classify
  dsimp only
  split <;> rfl

theorem preprocess_single (env : Env) (args : Args) (h : args.single = true) :
    (preprocess env args).1.single = true := by
  unfold preprocess
  dsimp only
  have hr : resolveMode { args with out := some (outList args) } =
      { args with out := some (outList args) } := by
    simp [resolveMode, h]
  rw [hr]
  split <;> simp [classify_single, h]

/-- C9: when both mode flags are set, scrape dispatches to the single-file
writer; the multiple-file writer is never invoked. -/
theorem both_flags_single_precedence (env : Env) (args : Args)
    (base_dir : String) (s : St)
    (h1 : args.single = true) (_h2 : args.multiple = true) :
    scrapeBody env args base_dir s =
      (match write_single_file env (preprocess env args).1 base_dir
          { s with stderr := s.stderr ++ (preprocess env args).2 } with
        | (Except.error e, s₂) => (Except.error e, s₂)
        | (Except.ok b, s₂) => (Except.ok (some b), s₂)) := by
  have hs := preprocess_single env args h1
  simp only [scrapeBody, hs, if_true]

/-- Witness for C9: a run with both flags set equals the single-file path. -/
theorem both_flags_single_precedence_witness :
    scrapeBody envC9 argsC9 "/base" st0 =
      (match write_single_file envC9 (preprocess envC9 argsC9).1 "/base"
          { st0 with stderr := st0.stderr ++ (preprocess envC9 argsC9).2 } with
        | (Except.error e, s₂) => (Except.error e, s₂)
        | (Except.ok b, s₂) => (Except.ok (some b), s₂)) := by
  exact both_flags_single_precedence envC9 argsC9 "/base" st0 rfl rfl

theorem pySplit_no_sep (sep : Char) (l : List Char)
    (h : l.contains sep = false) : pySplit sep l = [l] := by
  induction l with
  | nil => rfl
  | cons c cs ih =>
    simp only [List.contains_cons, Bool.or_eq_false_iff] at h
    obtain ⟨h1, h2⟩ := h
    have h1' : (c == sep) = false := by
      rw [beq_eq_false_iff_ne] at h1 ⊢
      exact fun hcc => h1 hcc.symm
    simp [pySplit, h1', ih h2]

theorem stripExt_no_dot (s : String) (h : s.data.contains '.' = false) :
    stripExt s = "" := by
  unfold stripExt
  rw [pySplit_no_sep _ _ h]
  rfl

/-- C10 amended: when the first matching query item is a local file without a
dot, the derived single output name is the empty string; write_single_file
then writes no output and returns success with the state (standard error
included) untouched: the failure diagnostic is not written in this case. -/
theorem empty_derived_name_silent_success (env : Env) (args : Args)
    (base_dir : String) (q : String) (s : St)
    (hq : args.query = [q])
    (hfq : args.files.contains q = true)
    (hdot : q.data.contains '.' = false)
    (hurl : args.urls = [])
    (hout : outList args = [])
    (hh : args.html = false) :
    singleOutName env args.files args.urls args.query = some ""
    ∧ write_single_file env args base_dir s = (Except.ok true, s) := by
  have hse : stripExt q = "" := stripExt_no_dot q hdot
  have h1 : singleOutName env args.files args.urls args.query = some "" := by
    rw [hq]
    simp only [singleOutName]
    rw [if_pos hfq, hse]
    rfl
  refine ⟨h1, ?_⟩
  have h1' := h1
  rw [hurl, hq] at h1'
  simp only [write_single_file, hurl, hq, hout, hh, List.isEmpty_nil,
    Bool.not_true, Bool.false_and, Bool.false_eq_true, if_false, gatherSingle,
    List.contains_nil, hfq, if_true, get_single_outfilename, h1']
  simp

/-- Witness for C10 amended at the dotless local file noext. -/
theorem empty_derived_name_silent_success_witness :
    singleOutName envC10 argsC10w.files argsC10w.urls argsC10w.query = some ""
    ∧ write_single_file envC10 argsC10w "/base" st0 = (Except.ok true, st0) := by
  exact empty_derived_name_silent_success envC10 argsC10w "/base" "noext" st0
    rfl rfl rfl rfl rfl rfl

end Scrape


namespace Scrape

theorem get_raw_resp_cwd (env : Env) (url : String) (s : St) :
    (get_raw_resp env url s).2.cwd = s.cwd := by
  unfold get_raw_resp
  split <;> rfl

theorem chdir_ok_cwd (env : Env) (d : String) (s s₁ : St) (u : Unit)
    (h : chdir env d s = (Except.ok u, s₁)) : s₁.cwd = d := by
  unfold chdir at h
  split at h
  · simp only [Prod.mk.injEq] at h
    rw [← h.2]
  · simp at h

theorem write_to_text_cwd (env : Env) (args : Args) (infn : List String)
    (outn : String) (s : St) :
    (write_to_text env args infn outn s).2.cwd = s.cwd := by
  simp only [write_to_text]
  split
  · rfl
  · split <;> rfl

theorem write_to_pdf_cwd (env : Env) (args : Args) (infn : List String)
    (outn : String) (s : St) :
    (write_to_pdf env args infn outn s).2.cwd = s.cwd := by
  simp only [write_to_pdf]
  split
  · rfl
  · split <;> rfl

theorem write_files_cwd (env : Env) (args : Args) (infn : List String)
    (outn : String) (s : St) :
    (write_files env args infn outn s).2.cwd = s.cwd := by
  have hd : (if args.print = true then print_text env args infn s
      else if args.pdf = true then write_to_pdf env args infn outn s
      else if args.text = true then write_to_text env args infn outn s
      else (Except.ok (), s)).2.cwd = s.cwd := by
    split
    · simp [print_text]
    · split
      · exact write_to_pdf_cwd env args infn outn s
      · split
        · exact write_to_text_cwd env args infn outn s
        · rfl
  simp only [write_files]
  rcases hX : (if args.print = true then print_text env args infn s
      else if args.pdf = true then write_to_pdf env args infn outn s
      else if args.text = true then write_to_text env args infn outn s
      else (Except.ok (), s)) with ⟨exc, s₁⟩
  rw [hX] at hd
  cases exc with
  | ok u =>
    show (((if (!args.urls.isEmpty && !args.html) = true then
        ((Except.ok () : Except Err Unit), remove_part_files s₁)
      else (Except.ok (), s₁)) : Except Err Unit × St)).2.cwd = s.cwd
    split <;> exact hd
  | error e => exact hd

theorem fetchTarget_cwd (env : Env) (args : Args) (q domain : String) (s : St) :
    (fetchTarget env args q domain s).2.cwd = s.cwd := by
  simp only [fetchTarget]
  split
  · split <;> rfl
  · rcases hr : get_raw_resp env q s with ⟨o, s₁⟩
    have h1 : s₁.cwd = s.cwd := by
      have h2 := get_raw_resp_cwd env q s
      rw [hr] at h2
      exact h2
    cases o <;> exact h1

theorem gatherSingle_cwd (env : Env) (args : Args) (domain : String) :
    ∀ (l acc : List String) (s : St),
      (gatherSingle env args domain l acc s).2.cwd = s.cwd := by
  intro l
  induction l with
  | nil => intro acc s; rfl
  | cons q rest ih =>
    intro acc s
    simp only [gatherSingle]
    split
    · rcases hft : fetchTarget env args q domain s with ⟨exc, s₁⟩
      have h1 : s₁.cwd = s.cwd := by
        have h2 := fetchTarget_cwd env args q domain s
        rw [hft] at h2
        exact h2
      rcases exc with e | o
      · exact h1
      · cases o with
        | none => exact h1
        | some names => rw [ih]; exact h1
    · split
      · exact ih (acc ++ [q]) s
      · exact ih acc s

theorem classify_html (env : Env) (args : Args) :
    (classify env args).html = args.html := by
  unfold classify
  dsimp only
  split <;> rfl

theorem resolveMode_html (args : Args) :
    (resolveMode args).html = args.html := by
  unfold resolveMode
  split
  · split <;> rfl
  · rfl

theorem preprocess_html (env : Env) (args : Args) :
    (preprocess env args).1.html = args.html := by
  unfold preprocess
  dsimp only
  split <;> simp [classify_html, resolveMode_html]

theorem write_single_file_html_restores (env : Env) (args : Args)
    (b : String) (s s₁ : St) (hh : args.html = true)
    (h : write_single_file env args b s = (Except.ok true, s₁)) :
    s₁.cwd = b := by
  simp only [write_single_file, hh, Bool.and_true, eq_self_iff_true, if_true] at h
  split at h
  · exact absurd h (by simp)
  · exact absurd h (by simp)
  · split at h
    · exact absurd h (by simp)
    · rename_i u s₂ heq
      injection h with h1 h2
      rw [← h2]
      exact chdir_ok_cwd env b _ s₂ u heq

theorem writeMultiLoop_html_restores (env : Env) (args : Args) (b : String)
    (hh : args.html = true) :
    ∀ (l : List String) (i : Nat) (s s₁ : St), s.cwd = b →
      writeMultiLoop env args b i l s = (Except.ok true, s₁) → s₁.cwd = b := by
  intro l
  induction l with
  | nil =>
    intro i s s₁ hc h
    simp only [writeMultiLoop] at h
    injection h with h1 h2
    rw [← h2]
    exact hc
  | cons q rest ih =>
    intro i s s₁ hc h
    simp only [writeMultiLoop, hh, Bool.and_true, eq_self_iff_true, if_true] at h
    split at h
    · split at h
      · exact absurd h (by simp)
      · rename_i u s₂ heq
        have h3 := congrArg (fun p : Except Err Unit × St => p.2.cwd) heq
        dsimp only at h3
        rw [write_files_cwd] at h3
        exact ih (i + 1) s₂ s₁ (by rw [← h3]; exact hc) h
    · split at h
      · split at h
        · exact absurd h (by simp)
        · exact absurd h (by simp)
        · split at h
          · exact absurd h (by simp)
          · rename_i u s₂ heq
            exact ih (i + 1) s₂ s₁ (chdir_ok_cwd env b _ s₂ u heq) h
      · exact ih (i + 1) s s₁ hc h

/-- C5 amended: in HTML mode the working directory is restored on every
normally completed run and on every exception (where a failing restore is
swallowed and the original error still propagates unchanged); runs aborted
by a no-content fetch return False with the directory left changed (see the
counterexample). -/
theorem html_cwd_restore (env : Env) (args : Args) (s : St)
    (hh : args.html = true) :
    (∀ s₁ : St, scrape env args s = (Except.ok (some true), s₁) →
      s₁.cwd = s.cwd)
    ∧ (∀ (e : Err) (s₁ : St),
        scrapeBody env args s.cwd s = (Except.error e, s₁) →
        scrape env args s =
          (Except.error e,
            if env.chdirOk s.cwd then { s₁ with cwd := s.cwd } else s₁)) := by
  constructor
  · intro s₁ h
    simp only [scrape] at h
    rcases hb : scrapeBody env args s.cwd s with ⟨exc, s₂⟩
    rw [hb] at h
    cases exc with
    | error e =>
      have h2 : (if args.html = true then
          (if env.chdirOk s.cwd = true then
            (Except.error e, { s₂ with cwd := s.cwd })
          else (Except.error e, s₂))
          else (Except.error e, remove_part_files s₂)) =
          ((Except.ok (some true), s₁) : Except Err (Option Bool) × St) := h
      rw [hh] at h2
      simp only [eq_self_iff_true, if_true] at h2
      split at h2 <;> simp at h2
    | ok v =>
      have h2 : ((Except.ok v, s₂) : Except Err (Option Bool) × St) =
          (Except.ok (some true), s₁) := h
      injection h2 with h21 h22
      injection h21 with h21
      subst h22
      subst h21
      simp only [scrapeBody] at hb
      split at hb
      · split at hb
        · exact absurd hb (by simp)
        · rename_i bv s₃ heq
          injection hb with hb1 hb2
          injection hb1 with hb1
          injection hb1 with hb1
          rw [hb1, hb2] at heq
          exact write_single_file_html_restores env (preprocess env args).1
            s.cwd _ s₂ (by rw [preprocess_html]; exact hh) heq
      · split at hb
        · split at hb
          · exact absurd hb (by simp)
          · rename_i bv s₃ heq
            injection hb with hb1 hb2
            injection hb1 with hb1
            injection hb1 with hb1
            rw [hb1, hb2] at heq
            rw [write_multiple_files] at heq
            exact writeMultiLoop_html_restores env (preprocess env args).1
              s.cwd (by rw [preprocess_html]; exact hh)
              (preprocess env args).1.query 0
              { s with stderr := s.stderr ++ (preprocess env args).2 } s₂ rfl heq
        · exact absurd hb (by simp)
  · intro e s₁ hbody
    have h0 : scrape env args s =
        (if args.html = true then
          (if env.chdirOk s.cwd = true then
            (Except.error e, { s₁ with cwd := s.cwd })
          else (Except.error e, s₁))
         else (Except.error e, remove_part_files s₁)) := by
      simp only [scrape]
      rw [hbody]
    rw [h0, hh]
    simp only [eq_self_iff_true, if_true]
    split <;> rfl

/-- Witness for C5 amended: a crawl failure in an HTML-mode run propagates
unchanged and the working directory is restored before it does. -/
theorem html_cwd_restore_witness :
    scrape envC5w argsC5w st0 =
      (Except.error (Err.exn "boom"), { st0 with cwd := "/base" }) := by
  have h := (html_cwd_restore envC5w argsC5w st0 rfl).2 (Err.exn "boom")
    { st0 with cwd := "/base/dom" } rfl
  exact h

end Scrape
